import Mathlib

/-!
Shallow embedding of the asynchronous job dispatch and result-retrieval
subsystem of the uber-eats MCP server (server.py, search_worker.py).

Python strings are modelled by Lean `String`; the Python method
`str.startswith` is modelled on the underlying character sequence.
The durable store (the `search_results/` directory of JSON files) is a
map from request identifier to the parsed content of the file for that
identifier: either a parsed JSON object whose fields are strings or
null, or a file whose contents fail to parse.  The in-memory mirror
(the module-level `search_results` dict) is a map from request
identifier to result text.  Python exceptions are modelled with
`Except`: an operation that can raise returns `Except String α`, and a
try/except block is a `match` on that result.
-/

namespace UberEats

/-- Model of the Python expression `result.startswith(p)`: the character
sequence of `p` is an initial segment of the character sequence of `s`. -/
def pyStartswith (s p : String) : Bool :=
  p.data.isPrefixOf s.data

/-- The status derivation of `save_result_to_disk` (identical in
server.py line 33 and search_worker.py line 25):
`"completed" if not result.startswith("Error") and not
result.startswith("Search was cancelled") else "error"`. -/
def deriveStatus (result : String) : String :=
  if !(pyStartswith result "Error") && !(pyStartswith result "Search was cancelled") then
    "completed"
  else
    "error"

/-- Content of one file of the durable store: either a JSON object that
parses, with each field a string or null, or content on which
`json.load` raises. -/
inductive DiskFile where
  | obj (fields : List (String × Option String))
  | corrupt
deriving DecidableEq

/-- The durable store: for each request identifier, the content of the
file `search_results/{request_id}.json`, or `none` when no such file
exists. -/
def DiskStore : Type := String → Option DiskFile

/-- The in-memory mirror `search_results`: a dict from request
identifier to result text. -/
def MemStore : Type := String → Option String

/-- The empty durable store (no result file exists). -/
def emptyDisk : DiskStore := fun _ => none

/-- The empty in-memory mirror. -/
def emptyMem : MemStore := fun _ => none

/-- The JSON object written by `save_result_to_disk` (server.py lines
29-34, search_worker.py lines 21-26): fields `request_id`, `result`,
`timestamp` (the current time, passed here as a parameter) and the
derived `status`. -/
def recordFields (request_id result timestamp : String) : List (String × Option String) :=
  [("request_id", some request_id),
   ("result", some result),
   ("timestamp", some timestamp),
   ("status", some (deriveStatus result))]

/-- The raw durable write performed inside the `try` block of
`save_result_to_disk`: serializing the record and writing the file.
The write can raise (storage unavailable), which the flag
`writeRaises` makes explicit; on success the file keyed by
`request_id` is replaced by the serialized record. -/
def writeRecordFile (disk : DiskStore) (request_id result timestamp : String)
    (writeRaises : Bool) : Except String DiskStore :=
  if writeRaises then
    Except.error "storage unavailable"
  else
    Except.ok (fun k =>
      if k = request_id then some (DiskFile.obj (recordFields request_id result timestamp))
      else disk k)

/-- `save_result_to_disk` (server.py lines 25-39, search_worker.py lines
17-31): performs the raw write inside a try block; any exception is
caught and logged, and the function returns normally with the store in
its previous state. -/
def save_result_to_disk (disk : DiskStore) (request_id result timestamp : String)
    (writeRaises : Bool) : DiskStore :=
  match writeRecordFile disk request_id result timestamp writeRaises with
  | Except.ok newDisk => newDisk
  | Except.error _ => disk

/-- `load_result_from_disk` (server.py lines 41-53): if the file exists
and parses, return `data.get("result")` (which is `None` when the field
is absent or null); if the file does not exist, return `None`; if
reading or parsing raises, the exception is caught and `None` is
returned. -/
def load_result_from_disk (disk : DiskStore) (request_id : String) : Option String :=
  match disk request_id with
  | none => none
  | some DiskFile.corrupt => none
  | some (DiskFile.obj fields) => Option.join (List.lookup "result" fields)

/-- The not-found message of `get_search_results` (server.py line 130). -/
def not_found_message (request_id : String) : String :=
  "No search results found for request ID: " ++ request_id

/-- `get_search_results` (server.py lines 110-130): durable storage
first; on `None`, fall back to the in-memory mirror; on a miss there
too, return the deterministic not-found message. -/
def get_search_results (disk : DiskStore) (search_results : MemStore)
    (request_id : String) : String :=
  match load_result_from_disk disk request_id with
  | some disk_result => disk_result
  | none =>
    match search_results request_id with
    | some r => r
    | none => not_found_message request_id

/-- The initial placeholder written at dispatch time (server.py line
104): `f"Search for \x27{food_craving}\x27 at \x27{address}\x27 is
running. Check back in 2-3 minutes for results."`. -/
def initial_status (food_craving address : String) : String :=
  "Search for \x27" ++ (food_craving ++ ("\x27 at \x27" ++ (address ++
    "\x27 is running. Check back in 2-3 minutes for results.")))

/-- The mutable state of the server process: the durable store and the
in-memory mirror. -/
structure ServerState where
  disk : DiskStore
  search_results : MemStore

/-- The dispatch tail of `find_menu_options` (server.py lines 103-108):
after spawning the worker process (whose pid is a parameter here), the
placeholder is stored in the in-memory mirror and written to disk, and
an acknowledgement string naming the retrieval handle is returned. -/
def find_menu_options (st : ServerState) (address food_craving request_id : String)
    (pid : Nat) (timestamp : String) (writeRaises : Bool) : ServerState × String :=
  let initial := initial_status food_craving address
  let mem : MemStore := fun k => if k = request_id then some initial else st.search_results k
  let disk := save_result_to_disk st.disk request_id initial timestamp writeRaises
  (⟨disk, mem⟩,
   "Search started! Worker process (PID " ++ (toString pid ++
     (") is running the browser automation. Results will be available in 2-3 minutes at resource://search_results/" ++
      request_id)))

/-- Exceptions that can escape the awaited engine call inside the
worker: `asyncio.CancelledError` (timeout surfacing as cancellation) or
an arbitrary `Exception` carrying a message. -/
inductive WorkerExc where
  | cancelledError
  | exc (msg : String)
deriving DecidableEq

/-- The possible outcomes of one run of the external Automation Engine
(`run_browser_agent`): normal return of the final result text, an
arbitrary raised exception, or cancellation. -/
inductive EngineOutcome where
  | ok (result : String)
  | raises (msg : String)
  | cancelled
deriving DecidableEq

/-- The awaited call `run_browser_agent(task=task, on_step=step_handler)`
as seen by the worker: it returns the result text or raises. -/
def run_browser_agent_call (outcome : EngineOutcome) : Except WorkerExc String :=
  match outcome with
  | EngineOutcome.ok r => Except.ok r
  | EngineOutcome.raises m => Except.error (WorkerExc.exc m)
  | EngineOutcome.cancelled => Except.error WorkerExc.cancelledError

/-- The terminal text written when the run is cancelled
(search_worker.py line 53). -/
def cancelled_message : String :=
  "Search was cancelled due to timeout. Please try again with a simpler search or address."

/-- `run_search` (search_worker.py lines 33-60): await the engine inside
a try block; on normal return save the result; on
`asyncio.CancelledError` save the cancellation message; on any other
`Exception` save `"Error: " + str(e)`.  All three branches return
normally, so the modelled function always produces `Except.ok` of the
resulting durable store. -/
def run_search (disk : DiskStore) (request_id : String) (outcome : EngineOutcome)
    (timestamp : String) (writeRaises : Bool) : Except WorkerExc DiskStore :=
  match run_browser_agent_call outcome with
  | Except.ok result =>
      Except.ok (save_result_to_disk disk request_id result timestamp writeRaises)
  | Except.error WorkerExc.cancelledError =>
      Except.ok (save_result_to_disk disk request_id cancelled_message timestamp writeRaises)
  | Except.error (WorkerExc.exc m) =>
      Except.ok (save_result_to_disk disk request_id ("Error: " ++ m) timestamp writeRaises)

/-- The worker step callback (search_worker.py lines 38-41): accepts
arbitrary positional and keyword arguments, increments the step counter
and prints; it cannot raise. -/
def worker_step_handler {α : Type} (step_count : Nat) (_args : List α)
    (_kwargs : List (String × α)) : Nat :=
  step_count + 1

/-- The behaviour of the caller-facing context for one job: each
notification either returns or raises. -/
structure Context where
  info : String → Except String Unit
  report_progress : Nat → Except String Unit

/-- The message sent by the in-process step callback (server.py line 166). -/
def order_step_msg (step_count : Nat) : String :=
  "Order step " ++ (toString step_count ++ " completed")

/-- The in-process step callback of `perform_order` (server.py lines
163-167): accepts arbitrary positional and keyword arguments,
increments the counter, then awaits `context.info` and
`context.report_progress` with no exception handling of its own, so a
failure of either notification propagates to the caller. -/
def order_step_handler {α : Type} (ctx : Context) (step_count : Nat) (_args : List α)
    (_kwargs : List (String × α)) : Except String Nat :=
  let step_count := step_count + 1
  match ctx.info (order_step_msg step_count) with
  | Except.error e => Except.error e
  | Except.ok _ =>
    match ctx.report_progress step_count with
    | Except.error e => Except.error e
    | Except.ok _ => Except.ok step_count

/-! Helper lemmas shared by the claim theorems. -/

theorem isPrefixOf_append_or (p : List Char) :
    ∀ a x : List Char, p.isPrefixOf (a ++ x) = true →
      p.isPrefixOf a = true ∨ a.isPrefixOf p = true := by
  induction p with
  | nil => intro a x _; left; exact List.isPrefixOf_nil_left
  | cons c cs ih =>
    intro a x h
    cases a with
    | nil => right; exact List.isPrefixOf_nil_left
    | cons b bs =>
      rw [List.cons_append, List.isPrefixOf_cons₂, Bool.and_eq_true, beq_iff_eq] at h
      obtain ⟨hcb, htail⟩ := h
      rcases ih bs x htail with h1 | h1
      · left
        rw [List.isPrefixOf_cons₂, Bool.and_eq_true, beq_iff_eq]
        exact ⟨hcb, h1⟩
      · right
        rw [List.isPrefixOf_cons₂, Bool.and_eq_true, beq_iff_eq]
        exact ⟨hcb.symm, h1⟩

theorem pyStartswith_append_false (head s p : String)
    (h1 : p.data.isPrefixOf head.data = false)
    (h2 : head.data.isPrefixOf p.data = false) :
    pyStartswith (head ++ s) p = false := by
  unfold pyStartswith
  rw [String.data_append]
  cases hp : p.data.isPrefixOf (head.data ++ s.data) with
  | false => rfl
  | true =>
    rcases isPrefixOf_append_or p.data head.data s.data hp with h | h
    · rw [h1] at h; exact absurd h (by simp)
    · rw [h2] at h; exact absurd h (by simp)

theorem initial_status_not_error (food_craving address : String) :
    pyStartswith (initial_status food_craving address) "Error" = false :=
  pyStartswith_append_false "Search for \x27" _ "Error" rfl rfl

theorem initial_status_not_cancelled (food_craving address : String) :
    pyStartswith (initial_status food_craving address) "Search was cancelled" = false :=
  pyStartswith_append_false "Search for \x27" _ "Search was cancelled" rfl rfl

theorem deriveStatus_initial_status (food_craving address : String) :
    deriveStatus (initial_status food_craving address) = "completed" := by
  unfold deriveStatus
  rw [initial_status_not_error, initial_status_not_cancelled]
  rfl

theorem save_self (disk : DiskStore) (request_id result timestamp : String) :
    save_result_to_disk disk request_id result timestamp false request_id
      = some (DiskFile.obj (recordFields request_id result timestamp)) := by
  simp [save_result_to_disk, writeRecordFile]

theorem save_other (disk : DiskStore) (request_id result timestamp : String)
    (k : String) (h : ¬k = request_id) :
    save_result_to_disk disk request_id result timestamp false k = disk k := by
  simp [save_result_to_disk, writeRecordFile, if_neg h]

theorem load_after_save (disk : DiskStore) (request_id result timestamp : String) :
    load_result_from_disk (save_result_to_disk disk request_id result timestamp false) request_id
      = some result := by
  unfold load_result_from_disk
  rw [save_self]
  rfl

/-! Claim theorems. -/

/-- Claim C1: for every result text passed to the Result Store put
operation, the persisted status field equals "error" if and only if the
text begins with the literal "Error" or the literal
"Search was cancelled", and equals "completed" for every other text. -/
theorem C1_put_status_classification (disk : DiskStore) (request_id result timestamp : String) :
    ∃ fields,
      save_result_to_disk disk request_id result timestamp false request_id
          = some (DiskFile.obj fields)
      ∧ List.lookup "status" fields = some (some (deriveStatus result))
      ∧ (deriveStatus result = "error" ↔
          (pyStartswith result "Error" = true ∨ pyStartswith result "Search was cancelled" = true))
      ∧ (deriveStatus result = "completed" ↔
          ¬(pyStartswith result "Error" = true ∨ pyStartswith result "Search was cancelled" = true)) := by
  refine ⟨recordFields request_id result timestamp, save_self disk request_id result timestamp,
    rfl, ?_, ?_⟩ <;>
  · unfold deriveStatus
    cases h1 : pyStartswith result "Error" <;>
      cases h2 : pyStartswith result "Search was cancelled" <;> decide

/-- Claim C3: writing a Job Record with put and then reading it back
via the durable path returns result text identical to what was
written. -/
theorem C3_round_trip (disk : DiskStore) (request_id result timestamp : String) :
    load_result_from_disk (save_result_to_disk disk request_id result timestamp false) request_id
      = some result :=
  load_after_save disk request_id result timestamp

/-- Claim C7: when the raw durable write raises, the Result Store put
operation catches the exception and returns normally, leaving the store
unchanged; the failure never propagates to the caller. -/
theorem C7_put_swallows_write_failure (disk : DiskStore) (request_id result timestamp : String) :
    (∃ e, writeRecordFile disk request_id result timestamp true = Except.error e)
    ∧ save_result_to_disk disk request_id result timestamp true = disk :=
  ⟨⟨"storage unavailable", rfl⟩, rfl⟩

/-- Claim C2: retrieval prefers the durable result, then the in-memory
mirror, then the deterministic not-found message, which is never the
empty string. -/
theorem C2_retrieval_preference (disk : DiskStore) (mem : MemStore) (request_id : String) :
    (∀ fields r, disk request_id = some (DiskFile.obj fields) →
        List.lookup "result" fields = some (some r) →
        get_search_results disk mem request_id = r)
    ∧ (∀ r, load_result_from_disk disk request_id = none → mem request_id = some r →
        get_search_results disk mem request_id = r)
    ∧ (load_result_from_disk disk request_id = none → mem request_id = none →
        get_search_results disk mem request_id = not_found_message request_id)
    ∧ not_found_message request_id ≠ "" := by
  refine ⟨?_, ?_, ?_, ?_⟩
  · intro fields r h1 h2
    have hload : load_result_from_disk disk request_id = some r := by
      unfold load_result_from_disk
      rw [h1]
      show (List.lookup "result" fields).join = some r
      rw [h2]
      rfl
    unfold get_search_results
    rw [hload]
  · intro r h1 h2
    unfold get_search_results
    rw [h1, h2]
  · intro h1 h2
    unfold get_search_results
    rw [h1, h2]
  · intro h
    have h2 := congrArg String.data h
    rw [not_found_message, String.data_append] at h2
    exact absurd h2 (by simp)

/-- Claim C2 witness: concrete instances of the three retrieval tiers. -/
theorem C2_retrieval_preference_witness :
    get_search_results (save_result_to_disk emptyDisk "r1" "ten pizzas" "t0" false) emptyMem "r1"
        = "ten pizzas"
    ∧ get_search_results emptyDisk (fun k => if k = "r2" then some "from-memory" else none) "r2"
        = "from-memory"
    ∧ get_search_results emptyDisk emptyMem "r3" = not_found_message "r3"
    ∧ not_found_message "r3" ≠ "" := by
  refine ⟨?_, ?_, ?_, (C2_retrieval_preference emptyDisk emptyMem "r3").2.2.2⟩
  · exact (C2_retrieval_preference _ emptyMem "r1").1
      (recordFields "r1" "ten pizzas" "t0") "ten pizzas" (save_self emptyDisk "r1" "ten pizzas" "t0") rfl
  · exact (C2_retrieval_preference emptyDisk _ "r2").2.1 "from-memory" rfl rfl
  · exact (C2_retrieval_preference emptyDisk emptyMem "r3").2.2.1 rfl rfl

/-- Claim C4: immediately after dispatch, both the in-memory mirror and
the durable store hold the exact placeholder text echoing the craving
and the address, and retrieval returns it. -/
theorem C4_dispatch_placeholder (st : ServerState) (address food_craving request_id : String)
    (pid : Nat) (timestamp : String) :
    ((find_menu_options st address food_craving request_id pid timestamp false).1).search_results
        request_id = some (initial_status food_craving address)
    ∧ load_result_from_disk
        ((find_menu_options st address food_craving request_id pid timestamp false).1).disk
        request_id = some (initial_status food_craving address)
    ∧ get_search_results
        ((find_menu_options st address food_craving request_id pid timestamp false).1).disk
        ((find_menu_options st address food_craving request_id pid timestamp false).1).search_results
        request_id = initial_status food_craving address
    ∧ initial_status food_craving address =
        "Search for \x27" ++ food_craving ++ "\x27 at \x27" ++ address ++
          "\x27 is running. Check back in 2-3 minutes for results." := by
  refine ⟨?_, ?_, ?_, ?_⟩
  · show (if request_id = request_id then _ else _) = _
    rw [if_pos rfl]
  · exact load_after_save st.disk request_id (initial_status food_craving address) timestamp
  · have hdisk : ((find_menu_options st address food_craving request_id pid timestamp false).1).disk
        = save_result_to_disk st.disk request_id (initial_status food_craving address) timestamp
            false := rfl
    unfold get_search_results
    rw [hdisk, load_after_save st.disk request_id (initial_status food_craving address) timestamp]
  · unfold initial_status
    rw [String.append_assoc, String.append_assoc, String.append_assoc]

/-- Claim C5: on cancellation the worker writes exactly the cancellation
message as the terminal record, its derived status is error, and the
cancellation never escapes the worker run. -/
theorem C5_cancellation_record (disk : DiskStore) (request_id timestamp : String) :
    run_search disk request_id EngineOutcome.cancelled timestamp false
        = Except.ok (save_result_to_disk disk request_id cancelled_message timestamp false)
    ∧ load_result_from_disk
        (save_result_to_disk disk request_id cancelled_message timestamp false) request_id
        = some cancelled_message
    ∧ cancelled_message =
        "Search was cancelled due to timeout. Please try again with a simpler search or address."
    ∧ deriveStatus cancelled_message = "error"
    ∧ (∀ wr : Bool,
        Except.isOk (run_search disk request_id EngineOutcome.cancelled timestamp wr) = true) := by
  refine ⟨rfl, load_after_save disk request_id cancelled_message timestamp, rfl, rfl, ?_⟩
  intro wr
  cases wr <;> rfl

/-- Claim C6: whatever the engine outcome (normal return, arbitrary
exception, or cancellation), the worker run writes exactly one record,
for its own request identifier only, and returns normally. -/
theorem C6_worker_single_terminal_write (disk : DiskStore) (request_id timestamp : String)
    (outcome : EngineOutcome) :
    ∃ text,
      run_search disk request_id outcome timestamp false
          = Except.ok (save_result_to_disk disk request_id text timestamp false)
      ∧ (match outcome with
         | EngineOutcome.ok r => text = r
         | EngineOutcome.raises m => text = "Error: " ++ m
         | EngineOutcome.cancelled => text = cancelled_message)
      ∧ save_result_to_disk disk request_id text timestamp false request_id
          = some (DiskFile.obj (recordFields request_id text timestamp))
      ∧ (∀ k, k = request_id ∨
          save_result_to_disk disk request_id text timestamp false k = disk k)
      ∧ (∀ wr : Bool, Except.isOk (run_search disk request_id outcome timestamp wr) = true) := by
  have hother : ∀ text k, k = request_id ∨
      save_result_to_disk disk request_id text timestamp false k = disk k := by
    intro text k
    by_cases h : k = request_id
    · exact Or.inl h
    · exact Or.inr (save_other disk request_id text timestamp k h)
  cases outcome with
  | ok r =>
    exact ⟨r, rfl, rfl, save_self disk request_id r timestamp, hother r,
      fun wr => by cases wr <;> rfl⟩
  | raises m =>
    exact ⟨"Error: " ++ m, rfl, rfl, save_self disk request_id ("Error: " ++ m) timestamp,
      hother ("Error: " ++ m), fun wr => by cases wr <;> rfl⟩
  | cancelled =>
    exact ⟨cancelled_message, rfl, rfl, save_self disk request_id cancelled_message timestamp,
      hother cancelled_message, fun wr => by cases wr <;> rfl⟩

/-- A context whose info notification always fails. -/
def badContext : Context :=
  ⟨fun _ => Except.error "info failed", fun _ => Except.ok ()⟩

/-- A context whose notifications always succeed. -/
def goodContext : Context :=
  ⟨fun _ => Except.ok (), fun _ => Except.ok ()⟩

/-- Claim C8 counterexample: the in-process step callback does raise
when the context info notification fails, refuting the claim that the
callback never raises. -/
theorem C8_step_handler_counterexample :
    order_step_handler badContext 0 ([] : List Unit) [] = Except.error "info failed" := rfl

/-- Claim C8 as amended: both step callbacks accept and ignore
arbitrary positional and keyword arguments; the worker-path callback
never raises; the in-process callback has no exception handling of its
own, so a failure of the info or report-progress notification
propagates to its caller. -/
theorem C8_step_handler_amended {α : Type} (args : List α) (kwargs : List (String × α))
    (step_count : Nat) (ctx : Context) :
    worker_step_handler step_count args kwargs = step_count + 1
    ∧ (ctx.info (order_step_msg (step_count + 1)) = Except.ok () →
        ctx.report_progress (step_count + 1) = Except.ok () →
        order_step_handler ctx step_count args kwargs = Except.ok (step_count + 1))
    ∧ (∀ e, ctx.info (order_step_msg (step_count + 1)) = Except.error e →
        order_step_handler ctx step_count args kwargs = Except.error e)
    ∧ (∀ e, ctx.info (order_step_msg (step_count + 1)) = Except.ok () →
        ctx.report_progress (step_count + 1) = Except.error e →
        order_step_handler ctx step_count args kwargs = Except.error e) := by
  refine ⟨rfl, ?_, ?_, ?_⟩
  · intro h1 h2
    unfold order_step_handler
    dsimp only
    rw [h1, h2]
  · intro e h1
    unfold order_step_handler
    dsimp only
    rw [h1]
  · intro e h1 h2
    unfold order_step_handler
    dsimp only
    rw [h1, h2]

/-- Claim C8 witness: concrete contexts exercising the amended claim. -/
theorem C8_step_handler_amended_witness :
    worker_step_handler 0 ([] : List Unit) [] = 1
    ∧ order_step_handler goodContext 0 ([] : List Unit) [] = Except.ok 1
    ∧ order_step_handler badContext 0 ([] : List Unit) [] = Except.error "info failed" := by
  refine ⟨(C8_step_handler_amended ([] : List Unit) [] 0 goodContext).1, ?_, ?_⟩
  · exact (C8_step_handler_amended ([] : List Unit) [] 0 goodContext).2.1 rfl rfl
  · exact (C8_step_handler_amended ([] : List Unit) [] 0 badContext).2.2.1 "info failed" rfl

/-- Claim C9: the dispatch-time placeholder record is persisted with
status completed, and the status derivation never produces the tag
running, so only two of the three status tags are realized on disk. -/
theorem C9_running_status_never_written (st : ServerState)
    (address food_craving request_id : String) (pid : Nat) (timestamp r : String) :
    ((find_menu_options st address food_craving request_id pid timestamp false).1).disk request_id
        = some (DiskFile.obj
            (recordFields request_id (initial_status food_craving address) timestamp))
    ∧ List.lookup "status" (recordFields request_id (initial_status food_craving address) timestamp)
        = some (some "completed")
    ∧ deriveStatus r ≠ "running"
    ∧ (deriveStatus r = "completed" ∨ deriveStatus r = "error") := by
  refine ⟨save_self st.disk request_id (initial_status food_craving address) timestamp, ?_, ?_, ?_⟩
  · show some (some (deriveStatus (initial_status food_craving address))) = some (some "completed")
    rw [deriveStatus_initial_status]
  · unfold deriveStatus
    cases pyStartswith r "Error" <;> cases pyStartswith r "Search was cancelled" <;> decide
  · unfold deriveStatus
    cases pyStartswith r "Error" <;> cases pyStartswith r "Search was cancelled" <;> decide

/-- Claim C10: a durable file that fails to parse, or whose parsed
object lacks a result field or carries a null one, yields the not-found
indication from the durable read without raising, and retrieval then
falls through to the mirror and finally to the not-found message. -/
theorem C10_degraded_disk_reads (disk : DiskStore) (mem : MemStore) (request_id : String)
    (fields : List (String × Option String)) :
    (disk request_id = some DiskFile.corrupt → load_result_from_disk disk request_id = none)
    ∧ (disk request_id = some (DiskFile.obj fields) → List.lookup "result" fields = none →
        load_result_from_disk disk request_id = none)
    ∧ (disk request_id = some (DiskFile.obj fields) →
        List.lookup "result" fields = some none →
        load_result_from_disk disk request_id = none)
    ∧ (∀ m, load_result_from_disk disk request_id = none → mem request_id = some m →
        get_search_results disk mem request_id = m)
    ∧ (load_result_from_disk disk request_id = none → mem request_id = none →
        get_search_results disk mem request_id = not_found_message request_id) := by
  refine ⟨?_, ?_, ?_, ?_, ?_⟩
  · intro h
    unfold load_result_from_disk
    rw [h]
  · intro h1 h2
    unfold load_result_from_disk
    rw [h1]
    show (List.lookup "result" fields).join = none
    rw [h2]
    rfl
  · intro h1 h2
    unfold load_result_from_disk
    rw [h1]
    show (List.lookup "result" fields).join = none
    rw [h2]
    rfl
  · intro m h1 h2
    unfold get_search_results
    rw [h1, h2]
  · intro h1 h2
    unfold get_search_results
    rw [h1, h2]

/-- Claim C10 witness: concrete degraded files and the resulting
fall-through behaviour. -/
theorem C10_degraded_disk_reads_witness :
    load_result_from_disk (fun _ => some DiskFile.corrupt) "r1" = none
    ∧ load_result_from_disk (fun _ => some (DiskFile.obj [("request_id", some "r2")])) "r2" = none
    ∧ load_result_from_disk (fun _ => some (DiskFile.obj [("result", none)])) "r3" = none
    ∧ get_search_results (fun _ => some DiskFile.corrupt)
        (fun k => if k = "r4" then some "cached" else none) "r4" = "cached"
    ∧ get_search_results (fun _ => some DiskFile.corrupt) emptyMem "r5"
        = not_found_message "r5" := by
  refine ⟨?_, ?_, ?_, ?_, ?_⟩
  · exact (C10_degraded_disk_reads (fun _ => some DiskFile.corrupt) emptyMem "r1" []).1 rfl
  · exact (C10_degraded_disk_reads (fun _ => some (DiskFile.obj [("request_id", some "r2")]))
      emptyMem "r2" [("request_id", some "r2")]).2.1 rfl rfl
  · exact (C10_degraded_disk_reads (fun _ => some (DiskFile.obj [("result", none)]))
      emptyMem "r3" [("result", none)]).2.2.1 rfl rfl
  · exact (C10_degraded_disk_reads (fun _ => some DiskFile.corrupt)
      (fun k => if k = "r4" then some "cached" else none) "r4" []).2.2.2.1 "cached" rfl rfl
  · exact (C10_degraded_disk_reads (fun _ => some DiskFile.corrupt) emptyMem "r5" []).2.2.2.2
      rfl rfl

end UberEats
